import Mathlib

/-!
# Verification of the search/filter engine of a static services website

Shallow embedding of the client-side search and tag-filter logic found in
`assets/js/main.js` (function `initSearch`, together with its inner helpers
`checkFilter` and `checkSearch`).  The DOM state the handlers touch is
modelled explicitly:

* each searchable element (`[data-searchable]`) becomes an `Item` carrying
  its `textContent`, its optional `data-category` attribute
  (`getAttribute` returns `null` for a missing attribute, modelled as
  `Option.none`) and its current display state (`true` = shown,
  `false` = `display: none`);
* each filter control (`[data-filter]`) becomes a `FilterButton` carrying
  its `data-filter` attribute value and whether it has the `active` class;
* the search input's live value and the `.no-results` element's visibility
  complete the `SearchState`.

JavaScript string methods are embedded over character lists:
`String.prototype.includes` is substring containment, `toLowerCase` maps
`Char.toLower` over the characters (the site's content is ASCII), and
`trim` is `String.trim`.  A `forEach` body that can throw (the filter-click
handler reads `categories.includes(filter)` where `categories` may be
`null`) is modelled with `Option`: `none` is the thrown `TypeError`, which
aborts the loop and skips everything after it.
-/

/-- JS `a.includes(b)` on character lists: `needle` occurs contiguously in
the haystack.  Tries a prefix match at every suffix of the haystack. -/
def containsChars (needle : List Char) : List Char → Bool
  | [] => needle.isEmpty
  | c :: rest => needle.isPrefixOf (c :: rest) || containsChars needle rest

/-- JS `s.includes(sub)`: substring test on strings. -/
def jsIncludes (s sub : String) : Bool :=
  containsChars sub.data s.data

/-- JS `s.toLowerCase()` restricted to the ASCII fragment the site uses,
character by character. -/
def jsToLower (s : String) : String :=
  ⟨s.data.map Char.toLower⟩

/-- JS `s.trim()` on character lists: drop leading and trailing
whitespace. -/
def trimChars (l : List Char) : List Char :=
  ((l.dropWhile Char.isWhitespace).reverse.dropWhile Char.isWhitespace).reverse

/-- JS `s.trim()`. -/
def jsTrim (s : String) : String :=
  ⟨trimChars s.data⟩

/-- One `[data-searchable]` element: its text payload, its raw
`data-category` attribute (`none` when the attribute is absent, as
`getAttribute` then returns `null`) and its current display state. -/
structure Item where
  textContent : String
  category : Option String
  display : Bool
deriving DecidableEq, Repr

/-- One `[data-filter]` control: its `data-filter` attribute value and
whether it currently carries the `active` class. -/
structure FilterButton where
  filter : String
  active : Bool
deriving DecidableEq, Repr

/-- The slice of page state `initSearch` reads and writes: the search
input's value, the searchable items in document order, the filter controls
in document order, and whether the `.no-results` element is shown. -/
structure SearchState where
  inputValue : String
  items : List Item
  buttons : List FilterButton
  noResultsShown : Bool
deriving DecidableEq, Repr

/-- `document.querySelector('[data-filter].active')` projected to the
`data-filter` value: the first active control's tag, if any. -/
def activeFilterValue (buttons : List FilterButton) : Option String :=
  (buttons.find? (fun b => b.active)).map (fun b => b.filter)

/-- Inner helper `checkFilter(item)`: `true` when no control is active;
otherwise the active tag must be `"all"` or occur in the item's
`data-category` value, a missing attribute defaulting to `''`
(`getAttribute(...) || ''`). -/
def checkFilter (buttons : List FilterButton) (item : Item) : Bool :=
  match activeFilterValue buttons with
  | none => true
  | some filter => filter == "all" || jsIncludes (item.category.getD "") filter

/-- Inner helper `checkSearch(item, query)`: an empty query matches
everything (`if (!query) return true`); otherwise lowercased substring
containment of the query in the item's text. -/
def checkSearch (item : Item) (query : String) : Bool :=
  if query == "" then true
  else jsIncludes (jsToLower item.textContent) (jsToLower query)

/-- Visibility an item gets from the search-input handler: the input value
is lowercased and trimmed, matched against the lowercased text, and
conjoined with `checkFilter`. -/
def queryDisplay (buttons : List FilterButton) (value : String) (item : Item) : Bool :=
  jsIncludes (jsToLower item.textContent) (jsTrim (jsToLower value)) && checkFilter buttons item

/-- Count of currently shown items; the handlers accumulate it as
`visibleCount` while they walk the node list. -/
def visibleCount (items : List Item) : Nat :=
  items.countP (fun i => i.display)

/-- The `input` handler of the search box, fired when the input's value
becomes `value`: recompute every item's display and show the no-results
message exactly when nothing is visible. -/
def onQueryChange (value : String) (st : SearchState) : SearchState :=
  let newItems := st.items.map (fun item =>
    { item with display := queryDisplay st.buttons value item })
  { st with
    inputValue := value
    items := newItems
    noResultsShown := visibleCount newItems == 0 }

/-- `filterButtons.forEach(btn => btn.classList.remove('active'))`. -/
def deactivateAll (buttons : List FilterButton) : List FilterButton :=
  buttons.map (fun b => { b with active := false })

/-- `button.classList.add('active')` on the control at position `j`. -/
def activateAt : List FilterButton → Nat → List FilterButton
  | [], _ => []
  | b :: bs, 0 => { b with active := true } :: bs
  | b :: bs, n + 1 => b :: activateAt bs n

/-- The active-state update at the top of the filter-click handler: every
control loses `active`, then the clicked one gains it. -/
def setActive (buttons : List FilterButton) (j : Nat) : List FilterButton :=
  activateAt (deactivateAll buttons) j

/-- The tag test inlined in the filter-click handler:
`filter === 'all' || categories.includes(filter)` where
`categories = item.getAttribute('data-category')`.  When the attribute is
absent and the tag is not `"all"`, `categories` is `null` and
`.includes` throws a `TypeError`, modelled as `none`. -/
def tagMatches (filter : String) (category : Option String) : Option Bool :=
  if filter == "all" then some true
  else category.map (fun c => jsIncludes c filter)

/-- Visibility an item gets from the filter-click handler: the inline tag
test (which can throw) conjoined with `checkSearch` on the raw input
value. -/
def tagDisplay (filter value : String) (item : Item) : Option Bool :=
  (tagMatches filter item.category).map (fun mf => mf && checkSearch item value)

/-- `forEach` over the items with a body that can throw: the first
`TypeError` aborts the whole handler. -/
def forEachItems (f : Item → Option Item) : List Item → Option (List Item)
  | [] => some []
  | i :: rest =>
    match f i with
    | none => none
    | some i2 => (forEachItems f rest).map (fun rest2 => i2 :: rest2)

/-- The click handler of the filter control at position `j`: update the
active classes, then recompute every item from the clicked control's
`data-filter` value and the current input value, then update the
no-results message.  `none` when the click targets no control or the item
loop throws. -/
def clickFilterButton (j : Nat) (st : SearchState) : Option SearchState :=
  match st.buttons.get? j with
  | none => none
  | some btn =>
    match forEachItems (fun item =>
        (tagDisplay btn.filter st.inputValue item).map
          (fun d => { item with display := d })) st.items with
    | none => none
    | some newItems =>
      some { st with
        buttons := setActive st.buttons j
        items := newItems
        noResultsShown := visibleCount newItems == 0 }

/-! ## Spec-shaped visibility predicates

Written from the specification's invariant — "(query is empty OR item text
contains query, case-insensitively) AND (selected tag is `"all"` OR the
tag condition holds)" — to be compared with the handlers above.  The tag
condition appears in two renderings: the specification's token-set
membership, and the substring containment the code actually performs. -/

/-- Split a character list at spaces, accumulating the current token in
reverse; the `data-category` convention separates categories by single
spaces. -/
def splitAtSpaces (cur : List Char) : List Char → List (List Char)
  | [] => [cur.reverse]
  | c :: rest =>
    if c = ' ' then cur.reverse :: splitAtSpaces [] rest
    else splitAtSpaces (c :: cur) rest

/-- The item's tag set as the specification's data model describes it:
the space-separated tokens of the `data-category` value. -/
def itemTagSet (item : Item) : List String :=
  (splitAtSpaces [] (item.category.getD "").data).map (fun l => String.mk l)

/-- Modelled from the spec: the visibility invariant of section 3, with
the tag condition read literally as tag-set membership. -/
def specSetVisible (query tag : String) (item : Item) : Bool :=
  (query == "" || jsIncludes (jsToLower item.textContent) (jsToLower query))
    && (tag == "all" || (itemTagSet item).contains tag)

/-- Spec-shaped predicate matching the search-input path: the normalized
query (lowercased and trimmed) is empty or occurs in the lowercased text,
and no control is active, or the active tag is `"all"` or occurs as a
substring of the `data-category` value (`''` when absent). -/
def specQueryVisible (value : String) (activeTag : Option String) (item : Item) : Bool :=
  (jsTrim (jsToLower value) == ""
      || jsIncludes (jsToLower item.textContent) (jsTrim (jsToLower value)))
    && (match activeTag with
        | none => true
        | some t => t == "all" || jsIncludes (item.category.getD "") t)

/-- Spec-shaped predicate matching the filter-click path: the raw query is
empty or its lowercased form occurs in the lowercased text, and the
selected tag is `"all"` or occurs as a substring of the `data-category`
value. -/
def specTagVisible (tag value : String) (item : Item) : Bool :=
  (value == "" || jsIncludes (jsToLower item.textContent) (jsToLower value))
    && (tag == "all" || jsIncludes (item.category.getD "") tag)

/-! ## Demonstration page content

The items and controls the repository's documentation describes: service
cards with space-separated `data-category` values and the four filter
controls All / Emergency / Residential / Commercial. -/

def itemA : Item := ⟨"Leak detection", some "residential emergency", true⟩

def itemB : Item := ⟨"Drain cleaning", some "residential", true⟩

def itemC : Item := ⟨"Water heater install", some "commercial", true⟩

def btnsAll : List FilterButton :=
  [⟨"all", true⟩, ⟨"emergency", false⟩, ⟨"residential", false⟩, ⟨"commercial", false⟩]

def btnsCom : List FilterButton :=
  [⟨"all", false⟩, ⟨"emergency", false⟩, ⟨"residential", false⟩, ⟨"commercial", true⟩]

def stAll : SearchState := ⟨"", [itemA, itemB, itemC], btnsAll, false⟩

def stCom : SearchState := ⟨"", [itemA, itemB, itemC], btnsCom, false⟩

/-- A card whose `data-category` attribute is missing altogether. -/
def itemNoCat : Item := ⟨"Mystery card", none, true⟩

/-! ## Basic lemmas about the string model -/

/-- The empty needle occurs in every haystack. -/
lemma containsChars_nil (l : List Char) : containsChars [] l = true := by
  induction l with
  | nil => rfl
  | cons c rest ih => simp [containsChars, List.isPrefixOf]

/-- JS `s.includes('')` is always `true`. -/
lemma jsIncludes_empty (s : String) : jsIncludes s "" = true := by
  unfold jsIncludes
  exact containsChars_nil s.data

/-- Guarding a substring test by emptiness of the needle changes nothing,
because the empty needle matches anyway. -/
lemma or_empty_jsIncludes (s q : String) :
    (q == "" || jsIncludes s q) = jsIncludes s q := by
  cases hq : q == "" with
  | false => simp
  | true =>
    have hq2 : q = "" := by exact eq_of_beq hq
    subst hq2
    simp [jsIncludes_empty]

/-- Lowercasing the empty string gives the empty string. -/
lemma jsToLower_empty : jsToLower "" = "" := rfl

/-- Lowercasing the empty string and trimming it gives the empty string. -/
lemma norm_empty : jsTrim (jsToLower "") = "" := rfl

/-- `checkSearch` agrees with the unguarded lowercased substring test. -/
lemma checkSearch_eq (item : Item) (value : String) :
    checkSearch item value
      = jsIncludes (jsToLower item.textContent) (jsToLower value) := by
  unfold checkSearch
  cases hv : value == "" with
  | false => simp
  | true =>
    have hv2 : value = "" := by exact eq_of_beq hv
    subst hv2
    simp [jsToLower_empty, jsIncludes_empty]

/-- Guarding a substring test by emptiness of the raw value changes
nothing: an empty value lowercases to the empty needle, which matches. -/
lemma or_empty_lower_jsIncludes (s value : String) :
    (value == "" || jsIncludes s (jsToLower value)) = jsIncludes s (jsToLower value) := by
  cases hv : value == "" with
  | false => simp
  | true =>
    have hv2 : value = "" := by exact eq_of_beq hv
    subst hv2
    simp [jsToLower_empty, jsIncludes_empty]

/-! ## C1 — the visibility invariant -/

/-- C1, counterexample: the claim reads the tag condition as tag-set
membership.  With the control value `"resident"` active and an item whose
only category token is `"residential"`, the engine shows the item after a
query recomputation (substring match), while the claimed invariant —
formalized as `specSetVisible` — says it must be hidden, since
`"resident"` is not one of the item's tags. -/
theorem C1_tag_set_counterexample :
    (onQueryChange "" ⟨"", [itemB], [⟨"resident", true⟩], false⟩).items.map
        (fun i => i.display) = [true]
    ∧ itemTagSet itemB = ["residential"]
    ∧ (itemTagSet itemB).contains "resident" = false
    ∧ specSetVisible "" "resident" itemB = false := by decide

/-- C1, amended: after a search-input recomputation an item is visible iff
(the lowercased-and-trimmed query is empty OR occurs in the lowercased
item text) AND (no control is active OR the active tag is `"all"` OR the
tag occurs as a substring of the `data-category` value, `''` when absent);
after a filter-click recomputation that completes, an item is visible iff
(the query is empty OR its lowercased form occurs in the lowercased text)
AND (the tag is `"all"` OR it occurs as a substring of the
`data-category` value). -/
theorem C1_visibility_characterization :
    (∀ (buttons : List FilterButton) (value : String) (item : Item),
      queryDisplay buttons value item
        = specQueryVisible value (activeFilterValue buttons) item)
    ∧ (∀ (tag value : String) (item : Item) (b : Bool),
      tagDisplay tag value item = some b → b = specTagVisible tag value item) := by
  constructor
  · intro buttons value item
    simp only [queryDisplay, specQueryVisible, checkFilter]
    cases h : activeFilterValue buttons with
    | none => simp [or_empty_jsIncludes]
    | some t => simp [or_empty_jsIncludes]
  · intro tag value item b h
    simp only [tagDisplay, tagMatches] at h
    simp only [specTagVisible]
    cases htag : (tag == "all") with
    | true =>
      have htag2 : tag = "all" := by exact eq_of_beq htag
      subst htag2
      simp [checkSearch_eq] at h
      simp [specTagVisible, or_empty_lower_jsIncludes, ← h]
    | false =>
      cases hc : item.category with
      | none => simp [htag, hc] at h
      | some c =>
        simp [htag, hc, checkSearch_eq] at h
        simp [specTagVisible, htag, hc, or_empty_lower_jsIncludes, ← h,
          Bool.and_comm]

/-- C1, amended, witness: concrete instances of both characterizations. -/
theorem C1_visibility_characterization_witness :
    queryDisplay btnsAll "drain" itemB
      = specQueryVisible "drain" (activeFilterValue btnsAll) itemB
    ∧ (true : Bool) = specTagVisible "commercial" "" itemC :=
  ⟨C1_visibility_characterization.1 btnsAll "drain" itemB,
   C1_visibility_characterization.2 "commercial" "" itemC true (by decide)⟩

/-! ## C2 — missing `data-category` attribute -/

/-- C2, evaluation at the failing input: with an item lacking the
`data-category` attribute, clicking the `"residential"` control (position
2) throws — the handler reads `categories.includes(filter)` on the `null`
returned by `getAttribute`, so the recomputation aborts (`none`).
Clicking `"all"` (position 0) short-circuits before the dereference and
completes, and the search-path helper `checkFilter` degrades to
"does not match" exactly as the claim describes, because only it applies
the `|| ''` fallback. -/
theorem C2_missing_attribute_crash :
    clickFilterButton 2 ⟨"", [itemNoCat], btnsAll, false⟩ = none
    ∧ clickFilterButton 0 ⟨"", [itemNoCat], btnsAll, false⟩
        = some ⟨"", [⟨"Mystery card", none, true⟩], btnsAll, false⟩
    ∧ checkFilter [⟨"residential", true⟩] itemNoCat = false := by decide

/-! ## C3 — agreement of the two recomputation paths -/

/-- C3, counterexample: with the `"all"` control active and the input
value `" drain"`, the search-input path trims the query and shows the
"Drain cleaning" card, while the filter-click path hands the untrimmed
value to `checkSearch` and hides the same card: the two paths disagree. -/
theorem C3_counterexample :
    activeFilterValue btnsAll = some "all"
    ∧ queryDisplay btnsAll " drain" itemB = true
    ∧ tagDisplay "all" " drain" itemB = some false := by decide

/-- C3, amended: the two paths compute the same visibility whenever the
lowercased input value is unchanged by trimming and the item either faces
the `"all"` tag or carries a `data-category` attribute (otherwise the
filter-click path throws instead of producing a visibility). -/
theorem C3_paths_agree :
    ∀ (buttons : List FilterButton) (tag value : String) (item : Item),
      activeFilterValue buttons = some tag →
      jsTrim (jsToLower value) = jsToLower value →
      (tag = "all" ∨ item.category ≠ none) →
      tagDisplay tag value item = some (queryDisplay buttons value item) := by
  intro buttons tag value item hact htrim hcat
  simp only [tagDisplay, tagMatches, queryDisplay, checkFilter, hact, htrim]
  cases htag : (tag == "all") with
  | true =>
    have htag2 : tag = "all" := by exact eq_of_beq htag
    subst htag2
    simp [checkSearch_eq]
  | false =>
    cases hc : item.category with
    | none =>
      rcases hcat with hcat | hcat
      · rw [hcat] at htag
        simp at htag
      · exact absurd hc hcat
    | some c =>
      simp [htag, hc, checkSearch_eq, Bool.and_comm]

/-- C3, amended, witness: a concrete trim-invariant query and an item
carrying the attribute, on which the two paths coincide. -/
theorem C3_paths_agree_witness :
    tagDisplay "commercial" "water" itemC
      = some (queryDisplay [⟨"commercial", true⟩] "water" itemC) :=
  C3_paths_agree [⟨"commercial", true⟩] "commercial" "water" itemC
    (by decide) (by decide) (by decide)

/-! ## C4 — the concrete three-card scenario -/

/-- C4: on the documented card set, query `"drain"` with `"all"` active
shows only the second card; clicking `"commercial"` with an empty query
shows only the third; query `"leak"` with `"commercial"` active shows
nothing and the no-results message appears. -/
theorem C4_concrete_scenarios :
    ((onQueryChange "drain" stAll).items.map (fun i => i.display)
        = [false, true, false]
      ∧ (onQueryChange "drain" stAll).noResultsShown = false)
    ∧ ((clickFilterButton 3 stAll).map (fun s => s.items.map (fun i => i.display))
        = some [false, false, true]
      ∧ (clickFilterButton 3 stAll).map (fun s => s.noResultsShown) = some false)
    ∧ ((onQueryChange "leak" stCom).items.map (fun i => i.display)
        = [false, false, false]
      ∧ (onQueryChange "leak" stCom).noResultsShown = true) := by decide

/-! ## C5 — exactly one active control after a click -/

/-- After the removal pass, no control carries the active class. -/
lemma deactivateAll_all_false (l : List FilterButton) :
    ∀ b ∈ deactivateAll l, b.active = false := by
  intro b hb
  simp only [deactivateAll, List.mem_map] at hb
  obtain ⟨a, _, ha⟩ := hb
  rw [← ha]

/-- The removal pass keeps the number of controls. -/
lemma deactivateAll_length (l : List FilterButton) :
    (deactivateAll l).length = l.length := by
  simp [deactivateAll]

/-- Activating position `j` in an all-inactive list leaves exactly one
active control. -/
lemma activateAt_countP (l : List FilterButton) :
    ∀ j : Nat, j < l.length → (∀ b ∈ l, b.active = false) →
      (activateAt l j).countP (fun b => b.active) = 1 := by
  induction l with
  | nil => intro j hj _; exact absurd hj (by simp)
  | cons b bs ih =>
    intro j hj hfalse
    cases j with
    | zero =>
      have hbs : bs.countP (fun x => x.active) = 0 := by
        rw [List.countP_eq_zero]
        intro a ha
        simp [hfalse a (List.mem_cons_of_mem b ha)]
      simp [activateAt, List.countP_cons, hbs]
    | succ n =>
      have hb : b.active = false := hfalse b (List.mem_cons_self b bs)
      have hn : n < bs.length := by
        simpa [Nat.succ_lt_succ_iff] using hj
      have ht := ih n hn (fun a ha => hfalse a (List.mem_cons_of_mem b ha))
      simp [activateAt, List.countP_cons, hb, ht]

/-- Activating position `j` only flips that position's active flag. -/
lemma activateAt_get? (l : List FilterButton) :
    ∀ j : Nat, (activateAt l j).get? j
      = (l.get? j).map (fun b => { b with active := true }) := by
  induction l with
  | nil => intro j; cases j <;> rfl
  | cons b bs ih =>
    intro j
    cases j with
    | zero => rfl
    | succ n => simpa [activateAt] using ih n

/-- The removal pass rewrites every position's active flag to `false`. -/
lemma deactivateAll_get? (l : List FilterButton) (j : Nat) :
    (deactivateAll l).get? j = (l.get? j).map (fun b => { b with active := false }) := by
  simp [deactivateAll, List.getElem?_map, List.get?_eq_getElem?]

/-- After the full active-state update, position `j` holds the clicked
control's tag with the active class set. -/
lemma setActive_get? (l : List FilterButton) (j : Nat) :
    (setActive l j).get? j = (l.get? j).map (fun b => ⟨b.filter, true⟩) := by
  rw [setActive, activateAt_get?, deactivateAll_get?]
  cases l.get? j <;> rfl

/-- C5: clicking the control at position `j` leaves exactly one control
active — the clicked one, its tag unchanged — and a completed click
installs exactly this updated control list in the state. -/
theorem C5_single_active_control :
    ∀ (buttons : List FilterButton) (j : Nat), j < buttons.length →
      ((setActive buttons j).countP (fun b => b.active) = 1
      ∧ ((setActive buttons j).get? j).map (fun b => b.active) = some true
      ∧ ((setActive buttons j).get? j).map (fun b => b.filter)
          = (buttons.get? j).map (fun b => b.filter)
      ∧ ∀ (st st2 : SearchState), st.buttons = buttons →
          clickFilterButton j st = some st2 → st2.buttons = setActive buttons j) := by
  intro buttons j hj
  have hjd : j < (deactivateAll buttons).length := by
    rwa [deactivateAll_length]
  obtain ⟨b, hb⟩ : ∃ b, buttons.get? j = some b := by
    rw [List.get?_eq_get hj]
    exact ⟨_, rfl⟩
  refine ⟨?_, ?_, ?_, ?_⟩
  · exact activateAt_countP _ j hjd (deactivateAll_all_false buttons)
  · rw [setActive_get?, hb]; rfl
  · rw [setActive_get?, hb]; rfl
  · intro st st2 hbtns hclick
    unfold clickFilterButton at hclick
    split at hclick
    · exact absurd hclick (by simp)
    · split at hclick
      · exact absurd hclick (by simp)
      · simp only [Option.some.injEq] at hclick
        rw [← hclick, ← hbtns]

/-- C5, witness: clicking the third control of the documented button row. -/
theorem C5_single_active_control_witness :
    (setActive btnsAll 2).countP (fun b => b.active) = 1
    ∧ ((setActive btnsAll 2).get? 2).map (fun b => b.active) = some true
    ∧ ((setActive btnsAll 2).get? 2).map (fun b => b.filter)
        = (btnsAll.get? 2).map (fun b => b.filter)
    ∧ (⟨"", [],
        [⟨"all", false⟩, ⟨"emergency", false⟩, ⟨"residential", true⟩, ⟨"commercial", false⟩],
        true⟩ : SearchState).buttons = setActive btnsAll 2 :=
  have h := C5_single_active_control btnsAll 2 (by decide)
  ⟨h.1, h.2.1, h.2.2.1, h.2.2.2 ⟨"", [], btnsAll, false⟩ _ rfl (by decide)⟩

/-! ## C6 — the no-results indicator -/

/-- State after clicking `"commercial"` while the only card is
residential: nothing matches and the message is up. -/
def stNoMatch : SearchState :=
  ⟨"", [⟨"Drain cleaning", some "residential", false⟩],
   [⟨"all", false⟩, ⟨"emergency", false⟩, ⟨"residential", false⟩, ⟨"commercial", true⟩],
   true⟩

/-- C6: after either recomputation, the no-results message is shown
exactly when no item is visible. -/
theorem C6_no_results_iff_zero_visible :
    (∀ (value : String) (st : SearchState),
      (onQueryChange value st).noResultsShown
        = (visibleCount (onQueryChange value st).items == 0))
    ∧ (∀ (j : Nat) (st st2 : SearchState), clickFilterButton j st = some st2 →
      st2.noResultsShown = (visibleCount st2.items == 0)) := by
  constructor
  · intro value st
    simp [onQueryChange]
  · intro j st st2 hclick
    unfold clickFilterButton at hclick
    split at hclick
    · exact absurd hclick (by simp)
    · split at hclick
      · exact absurd hclick (by simp)
      · simp only [Option.some.injEq] at hclick
        rw [← hclick]

/-- C6, witness: the query path on the three-card page, and a completed
click that leaves zero visible items and the message shown. -/
theorem C6_no_results_witness :
    ((onQueryChange "leak" stCom).noResultsShown
      = (visibleCount (onQueryChange "leak" stCom).items == 0))
    ∧ (stNoMatch.noResultsShown = (visibleCount stNoMatch.items == 0)) :=
  ⟨C6_no_results_iff_zero_visible.1 "leak" stCom,
   C6_no_results_iff_zero_visible.2 3 ⟨"", [itemB], btnsAll, false⟩ stNoMatch (by decide)⟩

/-! ## C7 — idempotence of the recomputation -/

/-- Recomputing the display flags a second time changes nothing, because
the predicate only reads the fields the first pass preserved. -/
lemma map_queryDisplay_idem (buttons : List FilterButton) (value : String) (l : List Item) :
    (l.map (fun item => { item with display := queryDisplay buttons value item })).map
        (fun item => { item with display := queryDisplay buttons value item })
      = l.map (fun item => { item with display := queryDisplay buttons value item }) := by
  induction l with
  | nil => rfl
  | cons a t ih =>
    simp only [List.map_cons]
    rw [ih]
    rfl

/-- Removing all active classes after an activation gives the same list as
removing them directly. -/
lemma deactivateAll_activateAt (l : List FilterButton) :
    ∀ j : Nat, deactivateAll (activateAt l j) = deactivateAll l := by
  induction l with
  | nil => intro j; rfl
  | cons b bs ih =>
    intro j
    cases j with
    | zero => rfl
    | succ n =>
      simp only [activateAt, deactivateAll, List.map_cons]
      rw [← deactivateAll, ← deactivateAll, ih n]

/-- Removing all active classes twice is the same as doing it once. -/
lemma deactivateAll_idem (l : List FilterButton) :
    deactivateAll (deactivateAll l) = deactivateAll l := by
  induction l with
  | nil => rfl
  | cons b bs ih =>
    simp only [deactivateAll, List.map_cons] at ih ⊢
    rw [ih]

/-- Repeating the full active-state update at the same position changes
nothing. -/
lemma setActive_idem (l : List FilterButton) (j : Nat) :
    setActive (setActive l j) j = setActive l j := by
  unfold setActive
  rw [deactivateAll_activateAt, deactivateAll_idem]

/-- Items that already carry the recomputed display flags pass through the
throwing loop unchanged, and it cannot throw on them. -/
lemma forEachItems_stable (filter value : String) :
    ∀ (l l2 : List Item),
      forEachItems (fun item =>
        (tagDisplay filter value item).map (fun d => { item with display := d })) l = some l2 →
      forEachItems (fun item =>
        (tagDisplay filter value item).map (fun d => { item with display := d })) l2 = some l2 := by
  intro l
  induction l with
  | nil =>
    intro l2 h
    simp only [forEachItems, Option.some.injEq] at h
    rw [← h]
    rfl
  | cons a t ih =>
    intro l2 h
    simp only [forEachItems] at h
    cases hga : tagDisplay filter value a with
    | none => rw [hga] at h; simp at h
    | some d =>
      rw [hga] at h
      simp only [Option.map_some'] at h
      cases hft : forEachItems (fun item =>
          (tagDisplay filter value item).map (fun d => { item with display := d })) t with
      | none => rw [hft] at h; simp at h
      | some t2 =>
        rw [hft] at h
        simp only [Option.map_some', Option.some.injEq] at h
        rw [← h]
        have hga2 : tagDisplay filter value { a with display := d } = some d := hga
        simp only [forEachItems, hga2, Option.map_some', ih t2 hft]

/-- C7: running the search-input recomputation twice with the same value
yields the same state as running it once, and re-clicking the same filter
control after a completed click reproduces the state exactly. -/
theorem C7_recompute_idempotent :
    (∀ (value : String) (st : SearchState),
      onQueryChange value (onQueryChange value st) = onQueryChange value st)
    ∧ (∀ (j : Nat) (st st2 : SearchState), clickFilterButton j st = some st2 →
      clickFilterButton j st2 = some st2) := by
  constructor
  · intro value st
    have h := map_queryDisplay_idem st.buttons value st.items
    simp only [onQueryChange]
    rw [h]
  · intro j st st2 hclick
    unfold clickFilterButton at hclick
    split at hclick
    · exact absurd hclick (by simp)
    · rename_i btn hget
      split at hclick
      · exact absurd hclick (by simp)
      · rename_i newItems hfe
        simp only [Option.some.injEq] at hclick
        subst hclick
        unfold clickFilterButton
        have h1 : ({ st with
            buttons := setActive st.buttons j
            items := newItems
            noResultsShown := visibleCount newItems == 0 } : SearchState).buttons.get? j
            = some ⟨btn.filter, true⟩ := by
          show (setActive st.buttons j).get? j = some ⟨btn.filter, true⟩
          rw [setActive_get?, hget]
          rfl
        simp only [h1]
        have h2 : forEachItems (fun item =>
            (tagDisplay btn.filter st.inputValue item).map
              (fun d => { item with display := d })) newItems = some newItems :=
          forEachItems_stable btn.filter st.inputValue st.items newItems hfe
        simp only [h2]
        simp [setActive_idem]

/-- State of the three-card page after a completed click on
`"commercial"` with an empty query. -/
def stAfterCom : SearchState :=
  ⟨"", [⟨"Leak detection", some "residential emergency", false⟩,
        ⟨"Drain cleaning", some "residential", false⟩,
        ⟨"Water heater install", some "commercial", true⟩],
   [⟨"all", false⟩, ⟨"emergency", false⟩, ⟨"residential", false⟩, ⟨"commercial", true⟩],
   false⟩

/-- C7, witness: a concrete repeated query and a concrete repeated click. -/
theorem C7_recompute_idempotent_witness :
    onQueryChange "drain" (onQueryChange "drain" stAll) = onQueryChange "drain" stAll
    ∧ clickFilterButton 3 stAfterCom = some stAfterCom :=
  ⟨C7_recompute_idempotent.1 "drain" stAll,
   C7_recompute_idempotent.2 3 stAll stAfterCom (by decide)⟩

/-! ## C8 — empty query with tag "all" shows every item -/

/-- With `"all"` active, the empty query gives every item a passing
predicate: the empty needle matches every text and the tag condition
short-circuits. -/
lemma queryDisplay_empty_all (buttons : List FilterButton) (item : Item)
    (h : activeFilterValue buttons = some "all") :
    queryDisplay buttons "" item = true := by
  simp [queryDisplay, checkFilter, h, norm_empty, jsIncludes_empty]

/-- C8: with the `"all"` control active, the search recomputation on the
empty query marks every item visible. -/
theorem C8_empty_query_all_shows_all :
    ∀ (st : SearchState), activeFilterValue st.buttons = some "all" →
      (onQueryChange "" st).items
        = st.items.map (fun item => { item with display := true }) := by
  intro st h
  simp only [onQueryChange]
  exact List.map_congr_left (fun item _ => by rw [queryDisplay_empty_all st.buttons item h])

/-- C8, witness: the three-card page with `"all"` active. -/
theorem C8_empty_query_all_shows_all_witness :
    (onQueryChange "" stAll).items
      = stAll.items.map (fun item => { item with display := true }) :=
  C8_empty_query_all_shows_all stAll (by decide)

/-! ## C9 — no active control behaves like the "all" sentinel -/

/-- C9: when no control carries the active class, `checkFilter` accepts
every item, so the search path decides visibility by the text match alone
— the same visibility as with an `"all"` control active. -/
theorem C9_no_active_control :
    ∀ (buttons : List FilterButton) (value : String) (item : Item),
      activeFilterValue buttons = none →
      (checkFilter buttons item = true
      ∧ queryDisplay buttons value item
          = jsIncludes (jsToLower item.textContent) (jsTrim (jsToLower value))
      ∧ queryDisplay buttons value item = queryDisplay [⟨"all", true⟩] value item) := by
  intro buttons value item h
  have hcf : checkFilter buttons item = true := by simp [checkFilter, h]
  have hall : checkFilter [⟨"all", true⟩] item = true := by
    simp [checkFilter, activeFilterValue]
  refine ⟨hcf, ?_, ?_⟩
  · simp [queryDisplay, hcf]
  · simp [queryDisplay, hcf, hall]

/-- C9, witness: a page whose controls are all inactive. -/
theorem C9_no_active_control_witness :
    checkFilter [⟨"residential", false⟩] itemB = true
    ∧ queryDisplay [⟨"residential", false⟩] "Drain" itemB
        = jsIncludes (jsToLower itemB.textContent) (jsTrim (jsToLower "Drain"))
    ∧ queryDisplay [⟨"residential", false⟩] "Drain" itemB
        = queryDisplay [⟨"all", true⟩] "Drain" itemB :=
  C9_no_active_control [⟨"residential", false⟩] "Drain" itemB (by decide)

/-! ## C10 — tag matching is substring containment, not token membership -/

/-- C10: for a non-`"all"` selected tag and an item carrying the
attribute, both the `checkFilter` path and the inline click-handler test
reduce to substring containment of the tag in the raw attribute value. -/
theorem C10_substring_tag_match :
    ∀ (buttons : List FilterButton) (tag : String) (item : Item) (cat : String),
      activeFilterValue buttons = some tag → tag ≠ "all" →
      item.category = some cat →
      (checkFilter buttons item = jsIncludes cat tag
      ∧ tagMatches tag item.category = some (jsIncludes cat tag)) := by
  intro buttons tag item cat hact htag hcat
  have hb : (tag == "all") = false := by
    rw [beq_eq_false_iff_ne]
    exact htag
  constructor
  · simp [checkFilter, hact, hb, hcat]
  · simp [tagMatches, hb, hcat]

/-- C10, witness: the tag `"resident"` is a prefix of the category
`"residential"` and therefore matches an item carrying only that other
category, although it is not one of the item's tags. -/
theorem C10_substring_tag_match_witness :
    (checkFilter [⟨"resident", true⟩] itemB = jsIncludes "residential" "resident"
    ∧ tagMatches "resident" itemB.category = some (jsIncludes "residential" "resident"))
    ∧ jsIncludes "residential" "resident" = true :=
  ⟨C10_substring_tag_match [⟨"resident", true⟩] "resident" itemB "residential"
      (by decide) (by decide) (by decide),
   by decide⟩
